import Mathlib

/-! Verification of the quiz session engine in src/server.js.

The JavaScript source is shallowly embedded.  JS numbers are modelled as
exact rationals (Rat) or integers (Int); the one place where the float
model is visible is the score computation, where the JS expression
0 / 0 = NaN is modelled with Option (none standing for NaN).  The
external model call together with JSON.parse is modelled by an
Except Unit JsValue parameter (Except.error covers the missing API key,
a provider error and a JSON parse failure, all of which land in the same
catch block of generateQuizQuestions), and the random shuffle
[...pool].sort of the fallback branch by a function parameter shuffle,
constrained to produce a permutation where a theorem needs it.
Date.now() is a Nat parameter, and the two Date.now() calls inside the
POST /api/quiz/new handler are modelled as the same instant. -/

/-- A question record as produced by the fallback pool of
generateQuizQuestions (src/server.js lines 90-277) and as consumed by the
session handlers: question text, four options, index of the correct
option, explanation. -/
structure QuestionRecord where
  question : String
  options : List String
  correct : Int
  explanation : String
deriving DecidableEq

/-- The QuestionRecord shape invariant from the specification: non-empty
text, exactly 4 options, correctIndex in [0,3]. -/
def shapeOk (q : QuestionRecord) : Bool :=
  decide (q.question ≠ "") && decide (q.options.length = 4) &&
    decide (0 ≤ q.correct ∧ q.correct ≤ 3)

/-- fallbackQuestions.basic from src/server.js lines 91-152. -/
def basicPool : List QuestionRecord :=
  [{ question := "What is the correct way to declare an integer variable in C++?",
     options := ["int x;", "integer x;", "var x;", "x = int;"],
     correct := 0,
     explanation := "In C++, you declare an integer variable using \x27int\x27 followed by the variable name." },
   { question := "Which operator is used for assignment in C++?",
     options := ["=", "==", "!=", ">="],
     correct := 0,
     explanation := "The single equals sign (=) is used for assignment, while == is used for comparison." },
   { question := "What is the output of: cout << 5 + 3 * 2;",
     options := ["16", "11", "13", "10"],
     correct := 1,
     explanation := "Multiplication has higher precedence than addition, so 3 * 2 = 6, then 5 + 6 = 11." },
   { question := "Which data type is used for storing single characters in C++?",
     options := ["char", "string", "character", "text"],
     correct := 0,
     explanation := "The \x27char\x27 data type is used to store single characters in C++." },
   { question := "What is the correct syntax for a for loop in C++?",
     options := ["for(int i=0; i<10; i++)", "for i in range(10)", "loop(int i=0; i<10; i++)", "for(int i=0; i<10; i++) \x7b"],
     correct := 0,
     explanation := "The correct syntax is \x27for(int i=0; i<10; i++)\x27 followed by the loop body." },
   { question := "Which keyword is used to include header files in C++?",
     options := ["#include", "#import", "#require", "#load"],
     correct := 0,
     explanation := "The \x27#include\x27 preprocessor directive is used to include header files." },
   { question := "What is the size of an int in C++?",
     options := ["4 bytes", "2 bytes", "8 bytes", "Depends on the system"],
     correct := 3,
     explanation := "The size of int depends on the system architecture (typically 4 bytes on 32-bit systems)." },
   { question := "Which operator is used for logical AND in C++?",
     options := ["&&", "&", "and", "AND"],
     correct := 0,
     explanation := "The \x27&&\x27 operator is used for logical AND operations in C++." },
   { question := "What is the correct way to declare a constant in C++?",
     options := ["const int x = 5;", "constant int x = 5;", "final int x = 5;", "readonly int x = 5;"],
     correct := 0,
     explanation := "The \x27const\x27 keyword is used to declare constants in C++." },
   { question := "Which loop executes at least once?",
     options := ["do-while", "while", "for", "foreach"],
     correct := 0,
     explanation := "The do-while loop executes the body at least once before checking the condition." }]

/-- fallbackQuestions.moderate from src/server.js lines 153-214. -/
def moderatePool : List QuestionRecord :=
  [{ question := "What is a pointer in C++?",
     options := ["A variable that stores memory address", "A function", "A data type", "A loop"],
     correct := 0,
     explanation := "A pointer is a variable that stores the memory address of another variable." },
   { question := "Which keyword is used to create a class?",
     options := ["class", "struct", "object", "instance"],
     correct := 0,
     explanation := "The \x27class\x27 keyword is used to define a class in C++." },
   { question := "What is the purpose of a constructor?",
     options := ["Initialize object data", "Destroy objects", "Call methods", "Declare variables"],
     correct := 0,
     explanation := "A constructor is used to initialize the data members of an object when it is created." },
   { question := "Which access specifier makes members accessible only within the class?",
     options := ["private", "public", "protected", "internal"],
     correct := 0,
     explanation := "The \x27private\x27 access specifier restricts access to members only within the same class." },
   { question := "What is function overloading?",
     options := ["Multiple functions with same name but different parameters", "Functions that call themselves", "Functions that return multiple values", "Functions with no parameters"],
     correct := 0,
     explanation := "Function overloading allows multiple functions with the same name but different parameter lists." },
   { question := "Which STL container provides dynamic array functionality?",
     options := ["vector", "array", "list", "deque"],
     correct := 0,
     explanation := "The \x27vector\x27 class provides dynamic array functionality with automatic resizing." },
   { question := "What is inheritance in C++?",
     options := ["Creating new classes from existing ones", "Creating multiple objects", "Creating functions", "Creating variables"],
     correct := 0,
     explanation := "Inheritance allows creating new classes that inherit properties and methods from existing classes." },
   { question := "Which operator is used for dynamic memory allocation?",
     options := ["new", "malloc", "allocate", "create"],
     correct := 0,
     explanation := "The \x27new\x27 operator is used for dynamic memory allocation in C++." },
   { question := "What is polymorphism in C++?",
     options := ["Same interface, different implementations", "Same implementation, different interfaces", "Multiple inheritance", "Function overloading"],
     correct := 0,
     explanation := "Polymorphism allows objects of different types to be treated as objects of a common base type." },
   { question := "Which keyword is used to prevent inheritance?",
     options := ["final", "sealed", "private", "static"],
     correct := 0,
     explanation := "The \x27final\x27 keyword (C++11) prevents a class from being inherited." }]

/-- fallbackQuestions.harder from src/server.js lines 215-276. -/
def harderPool : List QuestionRecord :=
  [{ question := "What is a template in C++?",
     options := ["A blueprint for creating generic functions/classes", "A data structure", "A function", "A variable"],
     correct := 0,
     explanation := "Templates are blueprints for creating generic functions and classes that work with different data types." },
   { question := "What is a smart pointer?",
     options := ["A pointer that automatically manages memory", "A fast pointer", "A large pointer", "A constant pointer"],
     correct := 0,
     explanation := "Smart pointers automatically manage memory allocation and deallocation, preventing memory leaks." },
   { question := "What is RAII in C++?",
     options := ["Resource Acquisition Is Initialization", "Random Access Iterator Interface", "Runtime Array Indexing Interface", "Recursive Algorithm Implementation"],
     correct := 0,
     explanation := "RAII is a programming technique that binds resource management to object lifetime." },
   { question := "Which C++11 feature allows type deduction?",
     options := ["auto", "var", "let", "type"],
     correct := 0,
     explanation := "The \x27auto\x27 keyword allows the compiler to automatically deduce the type of a variable." },
   { question := "What is move semantics in C++11?",
     options := ["Transferring resources without copying", "Moving objects in memory", "Changing object types", "Deleting objects"],
     correct := 0,
     explanation := "Move semantics allows transferring resources from one object to another without copying." },
   { question := "Which keyword is used for perfect forwarding?",
     options := ["forward", "move", "transfer", "pass"],
     correct := 0,
     explanation := "The \x27forward\x27 function is used for perfect forwarding of arguments in templates." },
   { question := "What is a lambda expression?",
     options := ["Anonymous function object", "Named function", "Class method", "Global function"],
     correct := 0,
     explanation := "A lambda expression is an anonymous function that can be defined inline." },
   { question := "Which design pattern ensures only one instance exists?",
     options := ["Singleton", "Factory", "Observer", "Strategy"],
     correct := 0,
     explanation := "The Singleton pattern ensures that a class has only one instance and provides global access to it." },
   { question := "What is const correctness in C++?",
     options := ["Using const to prevent unintended modifications", "Making all variables constant", "Using const for performance", "Declaring constants"],
     correct := 0,
     explanation := "Const correctness is the practice of using const to prevent unintended modifications of objects." },
   { question := "Which C++17 feature allows structured binding?",
     options := ["auto [a, b] = pair", "let [a, b] = pair", "var [a, b] = pair", "bind [a, b] = pair"],
     correct := 0,
     explanation := "Structured binding allows unpacking tuple-like objects into individual variables using auto [a, b] syntax." }]

/-- The pool lookup fallbackQuestions[difficulty] || fallbackQuestions.basic
(src/server.js line 280): an unrecognized difficulty falls back to the
basic pool. -/
def poolFor (difficulty : String) : List QuestionRecord :=
  if difficulty = "basic" then basicPool
  else if difficulty = "moderate" then moderatePool
  else if difficulty = "harder" then harderPool
  else basicPool

/-- A parsed JavaScript/JSON value, as produced by JSON.parse on the model
output.  The success path of generateQuizQuestions performs no validation,
so downstream code handles raw parsed values. -/
inductive JsValue where
  | null : JsValue
  | boolV : Bool → JsValue
  | numV : Rat → JsValue
  | strV : String → JsValue
  | arrV : List JsValue → JsValue
  | objV : List (String × JsValue) → JsValue

/-- JS property lookup on an object literal (first matching key). -/
def lookupField (fields : List (String × JsValue)) (k : String) : Option JsValue :=
  match fields with
  | [] => none
  | (k2, v) :: rest => if k2 = k then some v else lookupField rest k

/-- Whether a value is a JS string. -/
def isStr : JsValue → Bool
  | .strV _ => true
  | _ => false

/-- The QuestionRecord shape invariant on a raw parsed value: a question
field holding a non-empty string, an options field holding an array of
exactly 4 strings, and a correct field holding a number in [0,3]. -/
def jsShapeOk (v : JsValue) : Bool :=
  match v with
  | .objV fields =>
      (match lookupField fields "question" with
       | some (.strV s) => decide (s ≠ "")
       | _ => false) &&
      (match lookupField fields "options" with
       | some (.arrV xs) => decide (xs.length = 4) && xs.all isStr
       | _ => false) &&
      (match lookupField fields "correct" with
       | some (.numV n) => decide (0 ≤ n ∧ n ≤ 3)
       | _ => false)
  | _ => false

/-- The JS call value.slice(0, count) (src/server.js line 85): arrays and
strings slice, anything else throws a TypeError, which the surrounding
catch block converts into the fallback branch. -/
def jsSlice (v : JsValue) (count : Nat) : Except Unit JsValue :=
  match v with
  | .arrV xs => .ok (.arrV (xs.take count))
  | .strV s => .ok (.strV ⟨s.data.take count⟩)
  | _ => .error ()

/-- Length of the value returned by generateQuizQuestions (array length,
string length, 0 otherwise). -/
def jsLength : JsValue → Nat
  | .arrV xs => xs.length
  | .strV s => s.length
  | _ => 0

/-- A QuestionRecord rendered as the JS object the server stores and
serves. -/
def toJs (q : QuestionRecord) : JsValue :=
  .objV [("question", .strV q.question),
         ("options", .arrV (q.options.map .strV)),
         ("correct", .numV (q.correct : Rat)),
         ("explanation", .strV q.explanation)]

/-- The per-call uniqueness marker appended to a fallback question
(src/server.js lines 287-290). -/
def markQuestion (q : QuestionRecord) (stamp : Nat) : QuestionRecord :=
  { q with question := q.question ++ " (Session: " ++ toString stamp ++ ")" }

/-- The fallback branch of generateQuizQuestions (src/server.js lines
279-293): select the pool for the difficulty, shuffle it, take the first
count records and append the session marker to each question text. -/
def fallbackResult (difficulty : String) (count : Nat)
    (shuffle : List QuestionRecord → List QuestionRecord) (timestamp : Nat) :
    List QuestionRecord :=
  (((shuffle (poolFor difficulty)).take count).enum).map
    fun p => markQuestion p.2 (timestamp + p.1)

/-- generateQuizQuestions (src/server.js lines 27-295).  modelOutcome is
the parsed model output: Except.error covers every failure up to and
including JSON.parse (missing API key, provider error, malformed JSON);
Except.ok v is the parsed value, which the code merely slices — a failing
slice (a non-array, non-string parse) throws and is caught by the same
catch block.  No shape validation is performed on the success path. -/
def generateQuizQuestions (difficulty : String) (count : Nat)
    (modelOutcome : Except Unit JsValue)
    (shuffle : List QuestionRecord → List QuestionRecord) (timestamp : Nat) :
    JsValue :=
  match modelOutcome with
  | .ok v =>
      match jsSlice v count with
      | .ok sliced => sliced
      | .error _ => .arrV ((fallbackResult difficulty count shuffle timestamp).map toJs)
  | .error _ => .arrV ((fallbackResult difficulty count shuffle timestamp).map toJs)

/-- A quiz session (src/server.js lines 313-321).  The session layer is
stated over well-shaped QuestionRecord lists; the answers array, which JS
lets the handler index with an arbitrary number, is modelled as a partial
map from Int. -/
structure QuizSession where
  id : String
  difficulty : String
  questions : List QuestionRecord
  currentQuestion : Nat
  answers : Int → Option Int
  startTime : Nat
  completed : Bool

/-- The quizSessions Map (src/server.js line 19). -/
def Store : Type := String → Option QuizSession

/-- The store at server start: no sessions. -/
def emptyStore : Store := fun _ => none

/-- quizSessions.set(sessionId, session). -/
def setStore (st : Store) (k : String) (s : QuizSession) : Store :=
  fun k2 => if k2 = k then some s else st k2

/-- Session creation inside the POST /api/quiz/new handler (src/server.js
lines 310-323), given the already-acquired question list: the id is
Date.now().toString(), startTime is Date.now(), completed starts false. -/
def createSession (st : Store) (difficulty : String)
    (questions : List QuestionRecord) (now : Nat) : Store :=
  setStore st (toString now)
    { id := toString now
      difficulty := difficulty
      questions := questions
      currentQuestion := 0
      answers := fun _ => none
      startTime := now
      completed := false }

/-- The error outcomes surfaced by the session handlers. -/
inductive QuizError where
  | invalidDifficulty : QuizError
  | sessionNotFound : QuizError
  | alreadyCompleted : QuizError
deriving DecidableEq

/-- The HTTP status each error is surfaced with. -/
def QuizError.httpStatus : QuizError → Nat
  | .invalidDifficulty => 400
  | .sessionNotFound => 404
  | .alreadyCompleted => 400

/-- The question payload sent to the client for one question:
q => (\x7b question: q.question, options: q.options \x7d). -/
structure ClientQuestion where
  question : String
  options : List String
deriving DecidableEq

/-- The POST /api/quiz/new success response body (src/server.js lines
325-332). -/
structure NewQuizResponse where
  sessionId : String
  difficulty : String
  questions : List ClientQuestion
deriving DecidableEq

/-- The response builder of the POST /api/quiz/new handler: only question
text and options are sent. -/
def newQuizResponse (sessionId difficulty : String)
    (questions : List QuestionRecord) : NewQuizResponse :=
  { sessionId := sessionId
    difficulty := difficulty
    questions := questions.map fun q => { question := q.question, options := q.options } }

/-- The POST /api/quiz/:sessionId/answer handler (src/server.js lines
342-364): 404 for an unknown session, 400 for a completed one, otherwise
session.answers[questionIndex] = answer. -/
def recordAnswer (st : Store) (sessionId : String) (questionIndex answer : Int) :
    Except QuizError Unit × Store :=
  match st sessionId with
  | none => (.error .sessionNotFound, st)
  | some s =>
      if s.completed then (.error .alreadyCompleted, st)
      else (.ok (),
        setStore st sessionId
          { s with answers := fun j => if j = questionIndex then some answer else s.answers j })

/-- One row of the results array (src/server.js lines 385-391).
userAnswer is none when the question was never answered (JS undefined). -/
structure ReviewEntry where
  question : String
  userAnswer : Option Int
  correctAnswer : Int
  isCorrect : Bool
  explanation : String
deriving DecidableEq

/-- The GET /api/quiz/:sessionId/results success body (src/server.js
lines 400-407). -/
structure ResultSummary where
  score : Option Int
  correct : Nat
  total : Nat
  results : List ReviewEntry
  timeSpent : Int
  difficulty : String
deriving DecidableEq

/-- JS Math.round, on the exact-rational model of JS numbers. -/
def jsRound (x : Rat) : Int := ⌊x + 1 / 2⌋

/-- Math.round((correct / session.questions.length) * 100)
(src/server.js line 394).  none models the NaN produced by 0 / 0 when the
session has no questions. -/
def scoreOf (correct total : Nat) : Option Int :=
  if total = 0 then none
  else some (jsRound ((correct : Rat) / (total : Rat) * 100))

/-- The per-question review pass of the results handler (src/server.js
lines 380-392): isCorrect is userAnswer === question.correct, where an
absent answer (undefined) compares unequal to every number. -/
def reviewOf (questions : List QuestionRecord) (answers : Int → Option Int) :
    List ReviewEntry :=
  questions.enum.map fun p =>
    { question := p.2.question
      userAnswer := answers (p.1 : Int)
      correctAnswer := p.2.correct
      isCorrect := answers (p.1 : Int) == some p.2.correct
      explanation := p.2.explanation }

/-- The full result computation for one session (src/server.js lines
378-407). -/
def summarize (s : QuizSession) (now : Nat) : ResultSummary :=
  { score := scoreOf ((reviewOf s.questions s.answers).countP (·.isCorrect)) s.questions.length
    correct := (reviewOf s.questions s.answers).countP (·.isCorrect)
    total := s.questions.length
    results := reviewOf s.questions s.answers
    timeSpent := (now : Int) - (s.startTime : Int)
    difficulty := s.difficulty }

/-- The GET /api/quiz/:sessionId/results handler (src/server.js lines
369-412): 404 for an unknown session, otherwise compute the summary and
mark the session completed. -/
def computeResults (st : Store) (sessionId : String) (now : Nat) :
    Except QuizError ResultSummary × Store :=
  match st sessionId with
  | none => (.error .sessionNotFound, st)
  | some s => (.ok (summarize s now), setStore st sessionId { s with completed := true })

/-- Stores reachable from server start through the public operations. -/
inductive Reachable : Store → Prop where
  | init : Reachable emptyStore
  | create (st : Store) (d : String) (qs : List QuestionRecord) (now : Nat) :
      Reachable st → Reachable (createSession st d qs now)
  | record (st : Store) (sid : String) (qi a : Int) :
      Reachable st → Reachable (recordAnswer st sid qi a).2
  | results (st : Store) (sid : String) (now : Nat) :
      Reachable st → Reachable (computeResults st sid now).2

/-- Stores reachable when every answer submission stays inside the bounds
of the addressed session's question list. -/
inductive ReachableSafe : Store → Prop where
  | init : ReachableSafe emptyStore
  | create (st : Store) (d : String) (qs : List QuestionRecord) (now : Nat) :
      ReachableSafe st → ReachableSafe (createSession st d qs now)
  | record (st : Store) (sid : String) (qi a : Int)
      (h : ∀ s, st sid = some s → 0 ≤ qi ∧ qi < (s.questions.length : Int)) :
      ReachableSafe st → ReachableSafe (recordAnswer st sid qi a).2
  | results (st : Store) (sid : String) (now : Nat) :
      ReachableSafe st → ReachableSafe (computeResults st sid now).2

/-- Every key of every stored session's answers map lies inside
[0, number of questions). -/
def AnswersInRange (st : Store) : Prop :=
  ∀ sid s, st sid = some s →
    ∀ k : Int, s.answers k ≠ none → 0 ≤ k ∧ k < (s.questions.length : Int)

/-- Little-endian decimal digits of a natural number (always at least one
digit). -/
def digitsLE (n : Nat) : List Nat :=
  if n < 10 then [n]
  else (n % 10) :: digitsLE (n / 10)
decreasing_by exact Nat.div_lt_self (by omega) (by omega)

/-- Value of a little-endian digit list. -/
def valLE : List Nat → Nat
  | [] => 0
  | d :: ds => d + 10 * valLE ds

theorem valLE_digitsLE (n : Nat) : valLE (digitsLE n) = n := by
  induction n using Nat.strong_induction_on with
  | _ n ih =>
    unfold digitsLE
    by_cases h : n < 10
    · simp [h, valLE]
    · have hn : 0 < n := by omega
      rw [if_neg h]
      have := ih (n / 10) (Nat.div_lt_self hn (by omega))
      simp [valLE, this]
      omega

theorem digitsLE_lt_ten (n : Nat) : ∀ d ∈ digitsLE n, d < 10 := by
  induction n using Nat.strong_induction_on with
  | _ n ih =>
    unfold digitsLE
    by_cases h : n < 10
    · simp [h]
    · rw [if_neg h]
      intro d hd
      rcases List.mem_cons.mp hd with h1 | h2
      · subst h1; exact Nat.mod_lt _ (by omega)
      · exact ih (n / 10) (Nat.div_lt_self (by omega) (by omega)) d h2

theorem toDigitsCore_eq (fuel n : Nat) (ds : List Char) (hf : n < fuel) :
    Nat.toDigitsCore 10 fuel n ds = ((digitsLE n).map Nat.digitChar).reverse ++ ds := by
  induction fuel generalizing n ds with
  | zero => omega
  | succ fuel ih =>
    unfold Nat.toDigitsCore
    by_cases h : n / 10 = 0
    · have hn : n < 10 := by omega
      rw [if_pos h]
      unfold digitsLE
      rw [if_pos hn]
      simp [Nat.mod_eq_of_lt hn]
    · have hn : ¬ n < 10 := by
        intro hlt
        exact h (Nat.div_eq_of_lt hlt)
      rw [if_neg h]
      have hlt : n / 10 < fuel :=
        Nat.lt_of_lt_of_le (Nat.div_lt_self (by omega) (by omega)) (by omega)
      rw [ih (n / 10) (Nat.digitChar (n % 10) :: ds) hlt]
      conv_rhs => rw [digitsLE, if_neg hn]
      simp

theorem toDigits_eq (n : Nat) :
    Nat.toDigits 10 n = ((digitsLE n).map Nat.digitChar).reverse := by
  have := toDigitsCore_eq (n + 1) n [] (by omega)
  simpa [Nat.toDigits] using this

theorem digitChar_inj_lt :
    ∀ d < 10, ∀ e < 10, Nat.digitChar d = Nat.digitChar e → d = e := by decide

theorem map_digitChar_inj (l1 l2 : List Nat) (h1 : ∀ x ∈ l1, x < 10)
    (h2 : ∀ x ∈ l2, x < 10) (h : l1.map Nat.digitChar = l2.map Nat.digitChar) :
    l1 = l2 := by
  induction l1 generalizing l2 with
  | nil => cases l2 with
    | nil => rfl
    | cons b bs => simp at h
  | cons a as ih =>
    cases l2 with
    | nil => simp at h
    | cons b bs =>
      simp only [List.map_cons, List.cons.injEq] at h
      have ha : a = b :=
        digitChar_inj_lt a (h1 a (by simp)) b (h2 b (by simp)) h.1
      have hs : as = bs :=
        ih bs (fun x hx => h1 x (by simp [hx])) (fun x hx => h2 x (by simp [hx])) h.2
      rw [ha, hs]

/-- Date.now().toString() renders distinct timestamps to distinct session
ids: decimal rendering of naturals is injective. -/
theorem natToString_injective (m n : Nat) (h : toString m = toString n) : m = n := by
  have hrepr : Nat.repr m = Nat.repr n := h
  unfold Nat.repr at hrepr
  rw [toDigits_eq, toDigits_eq] at hrepr
  have hdata : ((digitsLE m).map Nat.digitChar).reverse = ((digitsLE n).map Nat.digitChar).reverse := by
    have := congrArg String.data hrepr
    simpa [List.asString] using this
  have hmap : (digitsLE m).map Nat.digitChar = (digitsLE n).map Nat.digitChar :=
    List.reverse_injective hdata
  have hdig : digitsLE m = digitsLE n :=
    map_digitChar_inj _ _ (digitsLE_lt_ten m) (digitsLE_lt_ten n) hmap
  have := congrArg valLE hdig
  rwa [valLE_digitsLE, valLE_digitsLE] at this

theorem floor_natCast_div (a b : Nat) (hb : b ≠ 0) :
    ⌊((a : Rat)) / (b : Rat)⌋ = ((a / b : Nat) : Int) := by
  have hb0 : 0 < b := Nat.pos_of_ne_zero hb
  have hbQ : (0 : Rat) < (b : Rat) := by exact_mod_cast hb0
  rw [Int.floor_eq_iff]
  constructor
  · exact_mod_cast Nat.cast_div_le
  · rw [div_lt_iff₀ hbQ]
    have hnat : a < (a / b + 1) * b := by
      have h1 := Nat.div_add_mod a b
      have h2 := Nat.mod_lt a hb0
      calc a = b * (a / b) + a % b := h1.symm
        _ < b * (a / b) + b := by omega
        _ = (a / b + 1) * b := by ring
    push_cast
    exact_mod_cast hnat

/-- Round-half-up of correct/total at the percentage level, written as an
exact natural-number formula: round(c/N*100) = floor((200c+N)/(2N)). -/
def specScore (c N : Nat) : Nat := (200 * c + N) / (2 * N)

theorem scoreOf_eq_specScore (c N : Nat) (hN : N ≠ 0) :
    scoreOf c N = some ((specScore c N : Nat) : Int) := by
  unfold scoreOf jsRound specScore
  rw [if_neg hN]
  congr 1
  have hNQ : (N : Rat) ≠ 0 := Nat.cast_ne_zero.mpr hN
  have hx : (c : Rat) / (N : Rat) * 100 + 1 / 2 =
      ((200 * c + N : Nat) : Rat) / ((2 * N : Nat) : Rat) := by
    push_cast
    field_simp
    ring
  rw [hx, floor_natCast_div _ _ (by omega)]

theorem basicPool_shape : ∀ q ∈ basicPool, shapeOk q = true := by decide

theorem moderatePool_shape : ∀ q ∈ moderatePool, shapeOk q = true := by decide

theorem harderPool_shape : ∀ q ∈ harderPool, shapeOk q = true := by decide

theorem pool_shapeOk (d : String) (q : QuestionRecord) (hq : q ∈ poolFor d) :
    shapeOk q = true := by
  unfold poolFor at hq
  by_cases h1 : d = "basic"
  · rw [if_pos h1] at hq; exact basicPool_shape q hq
  · rw [if_neg h1] at hq
    by_cases h2 : d = "moderate"
    · rw [if_pos h2] at hq; exact moderatePool_shape q hq
    · rw [if_neg h2] at hq
      by_cases h3 : d = "harder"
      · rw [if_pos h3] at hq; exact harderPool_shape q hq
      · rw [if_neg h3] at hq; exact basicPool_shape q hq

theorem markQuestion_shapeOk (q : QuestionRecord) (k : Nat) (h : shapeOk q = true) :
    shapeOk (markQuestion q k) = true := by
  unfold shapeOk at h ⊢
  simp only [Bool.and_eq_true, decide_eq_true_eq] at h ⊢
  refine ⟨⟨?_, h.1.2⟩, h.2⟩
  intro hempty
  have hl := congrArg String.length hempty
  simp only [markQuestion, String.length_append] at hl
  have h1 : String.length ")" = 1 := rfl
  have h2 : String.length "" = 0 := rfl
  omega

theorem toJs_shapeOk (q : QuestionRecord) (h : shapeOk q = true) :
    jsShapeOk (toJs q) = true := by
  have hred : jsShapeOk (toJs q) =
      ((decide (q.question ≠ "")) &&
        ((decide ((q.options.map JsValue.strV).length = 4)) && (q.options.map JsValue.strV).all isStr) &&
        (decide (0 ≤ (q.correct : Rat) ∧ (q.correct : Rat) ≤ 3))) := rfl
  unfold shapeOk at h
  simp only [Bool.and_eq_true, decide_eq_true_eq] at h
  rw [hred]
  simp only [Bool.and_eq_true, decide_eq_true_eq]
  refine ⟨⟨h.1.1, ?_, ?_⟩, ?_, ?_⟩
  · simpa using h.1.2
  · simp [List.all_map, Function.comp, isStr]
  · exact_mod_cast h.2.1
  · exact_mod_cast h.2.2

theorem snd_mem_of_mem_enum {α : Type} {l : List α} {p : Nat × α}
    (hp : p ∈ l.enum) : p.2 ∈ l := by
  rcases p with ⟨i, x⟩
  rw [List.mk_mem_enum_iff_getElem?] at hp
  exact List.getElem?_mem hp

theorem mem_fallbackResult (d : String) (c : Nat)
    (shuffle : List QuestionRecord → List QuestionRecord) (ts : Nat)
    (q' : QuestionRecord) (hq' : q' ∈ fallbackResult d c shuffle ts) :
    ∃ q ∈ shuffle (poolFor d), ∃ k : Nat, q' = markQuestion q k := by
  unfold fallbackResult at hq'
  rcases List.mem_map.mp hq' with ⟨p, hp, rfl⟩
  exact ⟨p.2, List.mem_of_mem_take (snd_mem_of_mem_enum hp), ts + p.1, rfl⟩

/-- C1 (amended): generateQuizQuestions is total — every internal failure,
including a missing API key, a provider error, a JSON parse failure and a
non-sliceable parse, is absorbed by the fallback branch — and the value it
returns has length at most count; whenever the fallback branch is taken,
every returned element satisfies the QuestionRecord shape invariant.  The
shape guarantee does not extend to the model success path, which performs
no validation (see quiz_C1_counterexample). -/
theorem quiz_C1_amended (d : String) (c : Nat) (mo : Except Unit JsValue)
    (shuffle : List QuestionRecord → List QuestionRecord) (ts : Nat)
    (hperm : (shuffle (poolFor d)).Perm (poolFor d)) :
    jsLength (generateQuizQuestions d c mo shuffle ts) ≤ c ∧
    (mo = .error () →
      ∃ l, generateQuizQuestions d c mo shuffle ts = .arrV l ∧
        ∀ e ∈ l, jsShapeOk e = true) := by
  have hfb : ∀ e ∈ (fallbackResult d c shuffle ts).map toJs, jsShapeOk e = true := by
    intro e he
    rcases List.mem_map.mp he with ⟨q', hq', rfl⟩
    rcases mem_fallbackResult d c shuffle ts q' hq' with ⟨q, hq, k, rfl⟩
    exact toJs_shapeOk _ (markQuestion_shapeOk _ _ (pool_shapeOk d q (hperm.mem_iff.mp hq)))
  have hfblen : (fallbackResult d c shuffle ts).length ≤ c := by
    unfold fallbackResult
    rw [List.length_map, List.enum_length, List.length_take]
    exact min_le_left _ _
  constructor
  · cases mo with
    | error u =>
        have : jsLength (JsValue.arrV ((fallbackResult d c shuffle ts).map toJs)) =
            (fallbackResult d c shuffle ts).length := by
          simp [jsLength]
        simpa [generateQuizQuestions, this] using hfblen
    | ok v =>
        cases v with
        | arrV xs =>
            have : jsLength (generateQuizQuestions d c (.ok (.arrV xs)) shuffle ts) =
                (xs.take c).length := rfl
            rw [this, List.length_take]
            exact min_le_left _ _
        | strV s =>
            have : jsLength (generateQuizQuestions d c (.ok (.strV s)) shuffle ts) =
                (s.data.take c).length := rfl
            rw [this, List.length_take]
            exact min_le_left _ _
        | null =>
            have : jsLength (generateQuizQuestions d c (.ok .null) shuffle ts) =
                (fallbackResult d c shuffle ts).length := by simp [generateQuizQuestions, jsSlice, jsLength]
            rw [this]; exact hfblen
        | boolV b =>
            have : jsLength (generateQuizQuestions d c (.ok (.boolV b)) shuffle ts) =
                (fallbackResult d c shuffle ts).length := by simp [generateQuizQuestions, jsSlice, jsLength]
            rw [this]; exact hfblen
        | numV n =>
            have : jsLength (generateQuizQuestions d c (.ok (.numV n)) shuffle ts) =
                (fallbackResult d c shuffle ts).length := by simp [generateQuizQuestions, jsSlice, jsLength]
            rw [this]; exact hfblen
        | objV fs =>
            have : jsLength (generateQuizQuestions d c (.ok (.objV fs)) shuffle ts) =
                (fallbackResult d c shuffle ts).length := by simp [generateQuizQuestions, jsSlice, jsLength]
            rw [this]; exact hfblen
  · intro hmo
    subst hmo
    exact ⟨_, rfl, hfb⟩

/-- C1 is false as stated: when the model output parses to an array, its
elements are returned without any shape validation — here a record with no
fields at all is surfaced by generateQuizQuestions. -/
theorem quiz_C1_counterexample :
    generateQuizQuestions "basic" 1 (Except.ok (JsValue.arrV [JsValue.objV []])) id 0 =
      JsValue.arrV [JsValue.objV []] ∧
    jsShapeOk (JsValue.objV []) = false := ⟨rfl, rfl⟩

/-- C1 witness: the amended theorem applied to a concrete failing model
outcome with the identity shuffle. -/
theorem quiz_C1_witness :
    jsLength (generateQuizQuestions "basic" 10 (Except.error ()) id 0) ≤ 10 :=
  (quiz_C1_amended "basic" 10 (Except.error ()) id 0 (List.Perm.refl _)).1

/-- C2 (amended): a parse failure — and likewise a parse to a value that
cannot be sliced — is treated as total generator failure: the fallback is
taken wholesale, with no partial acceptance.  However, the elements of a
successfully parsed array are surfaced verbatim (merely truncated to
count), with no shape validation, so shape-violating records can reach a
session from the model path (see quiz_C2_counterexample). -/
theorem quiz_C2_amended (d : String) (c : Nat) (mo : Except Unit JsValue)
    (shuffle : List QuestionRecord → List QuestionRecord) (ts : Nat) :
    (mo = .error () →
      generateQuizQuestions d c mo shuffle ts =
        .arrV ((fallbackResult d c shuffle ts).map toJs)) ∧
    (∀ v, mo = .ok v → jsSlice v c = .error () →
      generateQuizQuestions d c mo shuffle ts =
        .arrV ((fallbackResult d c shuffle ts).map toJs)) ∧
    (∀ xs, mo = .ok (.arrV xs) →
      generateQuizQuestions d c mo shuffle ts = .arrV (xs.take c)) := by
  refine ⟨?_, ?_, ?_⟩
  · intro h; subst h; rfl
  · intro v h hs; subst h; simp [generateQuizQuestions, hs]
  · intro xs h; subst h; rfl

/-- A parsed model record violating the shape invariant: two options
instead of four and a correct index of 7. -/
def c2Bad : JsValue :=
  .objV [("question", .strV "Which of these is a C++ keyword?"),
         ("options", .arrV [.strV "auto", .strV "maybe"]),
         ("correct", .numV 7),
         ("explanation", .strV "")]

/-- C2 is false as stated: shape validation is never performed, so a
malformed record parsed from the model output is surfaced unchanged. -/
theorem quiz_C2_counterexample :
    generateQuizQuestions "basic" 10 (Except.ok (JsValue.arrV [c2Bad])) id 0 =
      JsValue.arrV [c2Bad] ∧
    jsShapeOk c2Bad = false := ⟨rfl, rfl⟩

/-- C2 witness: the amended theorem applied to a concrete parse failure. -/
theorem quiz_C2_witness :
    generateQuizQuestions "harder" 3 (Except.error ()) id 9 =
      JsValue.arrV ((fallbackResult "harder" 3 id 9).map toJs) :=
  (quiz_C2_amended "harder" 3 (Except.error ()) id 9).1 rfl

/-- C7 (amended): when the generator fails, acquire returns the shuffled
fallback pool of the requested difficulty truncated to count — every
returned record is a pool record of that difficulty up to the session
marker appended to its question text (not a verbatim pool record, see
quiz_C7_counterexample) — and an unrecognized difficulty is coerced to the
basic pool. -/
theorem quiz_C7_amended (d : String) (c : Nat)
    (shuffle : List QuestionRecord → List QuestionRecord) (ts : Nat)
    (hperm : (shuffle (poolFor d)).Perm (poolFor d)) :
    generateQuizQuestions d c (Except.error ()) shuffle ts =
      JsValue.arrV ((fallbackResult d c shuffle ts).map toJs) ∧
    (fallbackResult d c shuffle ts).length = min c (poolFor d).length ∧
    (∀ q' ∈ fallbackResult d c shuffle ts,
      ∃ q ∈ poolFor d, ∃ k : Nat, q' = markQuestion q k) ∧
    (d ≠ "basic" → d ≠ "moderate" → d ≠ "harder" → poolFor d = basicPool) := by
  refine ⟨rfl, ?_, ?_, ?_⟩
  · unfold fallbackResult
    rw [List.length_map, List.enum_length, List.length_take, hperm.length_eq]
  · intro q' hq'
    rcases mem_fallbackResult d c shuffle ts q' hq' with ⟨q, hq, k, rfl⟩
    exact ⟨q, hperm.mem_iff.mp hq, k, rfl⟩
  · intro h1 h2 h3
    unfold poolFor
    rw [if_neg h1, if_neg h2, if_neg h3]

/-- C7 is false as stated: with a failing generator, no record returned by
the fallback branch is literally a member of the pool — each question text
carries the appended session marker. -/
theorem quiz_C7_counterexample :
    generateQuizQuestions "basic" 10 (Except.error ()) id 0 =
      JsValue.arrV ((fallbackResult "basic" 10 id 0).map toJs) ∧
    (fallbackResult "basic" 10 id 0).all (fun q => !(basicPool.contains q)) = true :=
  ⟨rfl, rfl⟩

/-- C7 witness: the amended theorem applied with the identity shuffle. -/
theorem quiz_C7_witness :
    (fallbackResult "basic" 4 id 5).length = min 4 (poolFor "basic").length :=
  (quiz_C7_amended "basic" 4 id 5 (List.Perm.refl _)).2.1

/-- C3 (amended): provided every answer submission uses a questionIndex
inside [0, N) of the addressed session, every store reachable through the
public operations keeps all keys of every session's answers map inside
[0, N).  The handler itself never checks the index, so without that
proviso the invariant fails (see quiz_C3_counterexample). -/
theorem quiz_C3_amended (st : Store) (h : ReachableSafe st) : AnswersInRange st := by
  induction h with
  | init =>
      intro sid s hs k hk
      exact absurd hs (by simp [emptyStore])
  | create st d qs now hst ih =>
      intro sid s hs k hk
      by_cases hc : sid = toString now
      · have hs' : some ({ id := toString now, difficulty := d, questions := qs, currentQuestion := 0, answers := (fun _ => none), startTime := now, completed := false } : QuizSession) = some s := by
          simpa [createSession, setStore, hc] using hs
        injection hs' with h2
        subst h2
        exact absurd rfl hk
      · have hs' : st sid = some s := by simpa [createSession, setStore, hc] using hs
        exact ih sid s hs' k hk
  | record st sid0 qi a hbound hst ih =>
      intro sid s hs k hk
      cases hss : st sid0 with
      | none =>
          have he : (recordAnswer st sid0 qi a).2 = st := by simp [recordAnswer, hss]
          rw [he] at hs
          exact ih sid s hs k hk
      | some s0 =>
          by_cases hc : s0.completed
          · have he : (recordAnswer st sid0 qi a).2 = st := by simp [recordAnswer, hss, hc]
            rw [he] at hs
            exact ih sid s hs k hk
          · have he : (recordAnswer st sid0 qi a).2 =
                setStore st sid0
                  { s0 with answers := fun j => if j = qi then some a else s0.answers j } := by
              simp [recordAnswer, hss, hc]
            rw [he] at hs
            by_cases hsid : sid = sid0
            · have hs' : some { s0 with answers := fun j => if j = qi then some a else s0.answers j } = some s := by
                simpa [setStore, hsid] using hs
              injection hs' with h2
              subst h2
              by_cases hkq : k = qi
              · subst hkq
                exact hbound s0 hss
              · have hk' : s0.answers k ≠ none := by
                  intro hnone
                  apply hk
                  show (if k = qi then some a else s0.answers k) = none
                  rw [if_neg hkq]
                  exact hnone
                exact ih sid0 s0 hss k hk'
            · have hs' : st sid = some s := by simpa [setStore, hsid] using hs
              exact ih sid s hs' k hk
  | results st sid0 now hst ih =>
      intro sid s hs k hk
      cases hss : st sid0 with
      | none =>
          have he : (computeResults st sid0 now).2 = st := by simp [computeResults, hss]
          rw [he] at hs
          exact ih sid s hs k hk
      | some s0 =>
          have he : (computeResults st sid0 now).2 =
              setStore st sid0 { s0 with completed := true } := by
            simp [computeResults, hss]
          rw [he] at hs
          by_cases hsid : sid = sid0
          · have hs' : some { s0 with completed := true } = some s := by
              simpa [setStore, hsid] using hs
            injection hs' with h2
            subst h2
            exact ih sid0 s0 hss k hk
          · have hs' : st sid = some s := by simpa [setStore, hsid] using hs
            exact ih sid s hs' k hk

/-- The store after creating a 10-question session at time 7 and then
submitting an answer at index 15, far outside [0, 10). -/
def c3Store : Store :=
  (recordAnswer (createSession emptyStore "basic" basicPool 7) "7" 15 2).2

/-- C3 is false as stated: the answer handler never bounds-checks
questionIndex, so a reachable store holds a 10-question session whose
answers map has an entry at key 15. -/
theorem quiz_C3_counterexample :
    Reachable c3Store ∧
    (c3Store "7").map (fun s => (s.answers 15, s.questions.length)) = some (some 2, 10) :=
  ⟨Reachable.record _ "7" 15 2 (Reachable.create _ "basic" basicPool 7 Reachable.init), rfl⟩

/-- The session stored by createSession emptyStore "basic" basicPool 7. -/
def c3Fresh : QuizSession :=
  { id := toString (7 : Nat), difficulty := "basic", questions := basicPool,
    currentQuestion := 0, answers := (fun _ => none), startTime := 7, completed := false }

/-- The same trace as c3Store but with an in-range answer index. -/
def c3SafeStore : Store :=
  (recordAnswer (createSession emptyStore "basic" basicPool 7) "7" 3 2).2

/-- C3 witness: the amended invariant applied to a concrete safe trace. -/
theorem quiz_C3_witness : (0 : Int) ≤ 3 ∧ (3 : Int) < (basicPool.length : Int) := by
  have hsafe : ReachableSafe c3SafeStore :=
    ReachableSafe.record _ "7" 3 2
      (by
        intro s hs
        have h3 : c3Fresh = s := Option.some.inj (show some c3Fresh = some s from hs)
        subst h3
        show (0 : Int) ≤ 3 ∧ (3 : Int) < (c3Fresh.questions.length : Int)
        decide)
      (ReachableSafe.create _ "basic" basicPool 7 ReachableSafe.init)
  exact quiz_C3_amended c3SafeStore hsafe "7" _ rfl 3 (by decide)

/-- C4 (amended): session creation records startTime = now and
completed = false and stores the session under the id
Date.now().toString(); two creations at distinct timestamps receive
distinct ids and both stay stored.  The uniqueness claim fails for two
creations at the same millisecond, whose ids collide and the second of
which overwrites the first (see quiz_C4_counterexample). -/
theorem quiz_C4_amended (st : Store) (d d' : String) (qs qs' : List QuestionRecord) (now now' : Nat) (h : now ≠ now') :
    toString now ≠ toString now' ∧
    (createSession st d qs now) (toString now) = some ({ id := toString now, difficulty := d, questions := qs, currentQuestion := 0, answers := (fun _ => none), startTime := now, completed := false } : QuizSession) ∧
    (createSession (createSession st d qs now) d' qs' now') (toString now) = some ({ id := toString now, difficulty := d, questions := qs, currentQuestion := 0, answers := (fun _ => none), startTime := now, completed := false } : QuizSession) := by
  have hne : toString now ≠ toString now' := fun hh => h (natToString_injective now now' hh)
  refine ⟨hne, ?_, ?_⟩
  · simp [createSession, setStore]
  · simp [createSession, setStore, hne]

/-- The store after two session creations during the same millisecond. -/
def c4Store : Store :=
  createSession (createSession emptyStore "basic" basicPool 5) "moderate" moderatePool 5

/-- C4 is false as stated: two sessions created at the same millisecond
both receive the id Date.now().toString() = "5"; the second creation
overwrites the first, whose session is no longer stored. -/
theorem quiz_C4_counterexample :
    (c4Store (toString (5 : Nat))).map (fun s => s.difficulty) = some "moderate" ∧
    ((createSession emptyStore "basic" basicPool 5) (toString (5 : Nat))).map (fun s => s.difficulty) = some "basic" :=
  ⟨rfl, rfl⟩

/-- C4 witness: the amended theorem applied to creations at times 1 and 2. -/
theorem quiz_C4_witness :
    (createSession (createSession emptyStore "basic" basicPool 1) "moderate" moderatePool 2) (toString (1 : Nat)) = some ({ id := toString (1 : Nat), difficulty := "basic", questions := basicPool, currentQuestion := 0, answers := (fun _ => none), startTime := 1, completed := false } : QuizSession) :=
  (quiz_C4_amended emptyStore "basic" "moderate" basicPool moderatePool 1 2 (by decide)).2.2

/-- C5: recordAnswer fails with SessionNotFound (status 404) on an unknown
id, fails with AlreadyCompleted (status 400) whenever the session is
completed, and otherwise stores the answer at the submitted index
(overwriting any prior value there) while leaving every other session
untouched; on either failure the store is returned unchanged. -/
theorem quiz_C5 (st : Store) (sid : String) (qi a : Int) :
    (st sid = none →
      recordAnswer st sid qi a = (.error .sessionNotFound, st) ∧
      QuizError.httpStatus .sessionNotFound = 404) ∧
    (∀ s, st sid = some s → s.completed = true →
      recordAnswer st sid qi a = (.error .alreadyCompleted, st) ∧
      QuizError.httpStatus .alreadyCompleted = 400) ∧
    (∀ s, st sid = some s → s.completed = false →
      (recordAnswer st sid qi a).1 = .ok () ∧
      (recordAnswer st sid qi a).2 sid = some { s with answers := fun j => if j = qi then some a else s.answers j } ∧
      (∀ sid2, sid2 ≠ sid → (recordAnswer st sid qi a).2 sid2 = st sid2)) := by
  refine ⟨?_, ?_, ?_⟩
  · intro h
    exact ⟨by simp [recordAnswer, h], rfl⟩
  · intro s hs hc
    exact ⟨by simp [recordAnswer, hs, hc], rfl⟩
  · intro s hs hc
    refine ⟨by simp [recordAnswer, hs, hc], ?_, ?_⟩
    · simp [recordAnswer, hs, hc, setStore]
    · intro sid2 hne
      simp [recordAnswer, hs, hc, setStore, hne]

/-- A fresh, uncompleted 10-question session used as concrete input. -/
def c5Session : QuizSession :=
  { id := "5"
    difficulty := "basic"
    questions := basicPool
    currentQuestion := 0
    answers := fun _ => none
    startTime := 0
    completed := false }

/-- A store holding only c5Session under id "5". -/
def c5Store : Store := fun k => if k = "5" then some c5Session else none

/-- C5 witness: the success branch applied to a concrete store. -/
theorem quiz_C5_witness :
    (recordAnswer c5Store "5" 2 3).1 = .ok () ∧
    (recordAnswer c5Store "5" 2 3).2 "5" = some { c5Session with answers := fun j => if j = 2 then some 3 else c5Session.answers j } := by
  have h := (quiz_C5 c5Store "5" 2 3).2.2 c5Session rfl rfl
  exact ⟨h.1, h.2.1⟩

/-- C6: computeResults is idempotent — two successive calls on the same
stored session return the same score, the same correct count and the same
per-question review entries (only timeSpent depends on the invocation
time), and each call sets completed = true. -/
theorem quiz_C6 (st : Store) (sid : String) (s : QuizSession) (now now' : Nat) (hs : st sid = some s) :
    (computeResults st sid now).1 = .ok (summarize s now) ∧
    (computeResults st sid now).2 sid = some { s with completed := true } ∧
    (computeResults (computeResults st sid now).2 sid now').1 = .ok (summarize { s with completed := true } now') ∧
    (summarize { s with completed := true } now').score = (summarize s now).score ∧
    (summarize { s with completed := true } now').correct = (summarize s now).correct ∧
    (summarize { s with completed := true } now').results = (summarize s now).results ∧
    (computeResults (computeResults st sid now).2 sid now').2 sid = some { s with completed := true } := by
  have h1 : computeResults st sid now = (.ok (summarize s now), setStore st sid { s with completed := true }) := by
    simp [computeResults, hs]
  have h2 : (setStore st sid { s with completed := true }) sid = some { s with completed := true } := by
    simp [setStore]
  refine ⟨by rw [h1], by rw [h1]; exact h2, ?_, rfl, rfl, rfl, ?_⟩
  · rw [h1]
    simp [computeResults, h2]
  · rw [h1]
    simp [computeResults, h2, setStore]

/-- C6 witness: the idempotence theorem applied to a concrete store. -/
theorem quiz_C6_witness :
    (computeResults c5Store "5" 100).1 = .ok (summarize c5Session 100) ∧
    (summarize { c5Session with completed := true } 200).score = (summarize c5Session 100).score := by
  have h := quiz_C6 c5Store "5" c5Session 100 200 rfl
  exact ⟨h.1, h.2.2.2.1⟩

/-- C8: the session-creation response withholds the answer key — the
questions array sent back by POST /api/quiz/new is a function of the
stored records' question text and options alone, so it is unchanged under
any variation of their correct and explanation fields. -/
theorem quiz_C8 (sid d : String) (qs qs' : List QuestionRecord)
    (h : qs.map (fun q => (q.question, q.options)) = qs'.map (fun q => (q.question, q.options))) :
    newQuizResponse sid d qs = newQuizResponse sid d qs' := by
  have h2 := congrArg (List.map (fun p : String × List String => ClientQuestion.mk p.1 p.2)) h
  simp only [List.map_map] at h2
  have h3 : qs.map (fun q => ClientQuestion.mk q.question q.options) = qs'.map (fun q => ClientQuestion.mk q.question q.options) := by
    simpa [Function.comp] using h2
  unfold newQuizResponse
  rw [h3]

/-- A one-question list whose record carries one answer key. -/
def c8A : List QuestionRecord :=
  [{ question := "Which container is a dynamic array?"
     options := ["vector", "set", "map", "stack"]
     correct := 0
     explanation := "vector grows dynamically." }]

/-- The same question text and options with a different correct index and
explanation. -/
def c8B : List QuestionRecord :=
  [{ question := "Which container is a dynamic array?"
     options := ["vector", "set", "map", "stack"]
     correct := 3
     explanation := "an entirely different answer key" }]

/-- C8 witness: varying correct and explanation leaves the creation
response unchanged. -/
theorem quiz_C8_witness :
    newQuizResponse "1" "basic" c8A = newQuizResponse "1" "basic" c8B :=
  quiz_C8 "1" "basic" c8A c8B (by decide)

/-- The correct-count accumulated by the results pass of a session. -/
def correctCount (s : QuizSession) : Nat :=
  (reviewOf s.questions s.answers).countP (·.isCorrect)

/-- C9: for every stored session with at least one question, the score
returned by the results handler equals round-half-up of
correct/total at the percentage level — Math.round((correct/N)*100) =
floor((200*correct+N)/(2*N)) — and in particular 7 of 10 scores 70 and
2 of 3 scores 67. -/
theorem quiz_C9 (st : Store) (sid : String) (s : QuizSession) (now : Nat)
    (hs : st sid = some s) (hN : s.questions.length ≠ 0) :
    (computeResults st sid now).1.map (·.score) = .ok (some ((specScore (correctCount s) s.questions.length : Nat) : Int)) ∧
    specScore 7 10 = 70 ∧ specScore 2 3 = 67 := by
  refine ⟨?_, rfl, rfl⟩
  have h1 : computeResults st sid now = (.ok (summarize s now), setStore st sid { s with completed := true }) := by
    simp [computeResults, hs]
  rw [h1]
  show Except.ok (summarize s now).score = _
  rw [show (summarize s now).score = scoreOf (correctCount s) s.questions.length from rfl]
  rw [scoreOf_eq_specScore _ _ hN]

/-- A three-question session used as concrete scoring input. -/
def c9Questions : List QuestionRecord :=
  [{ question := "q0", options := ["a", "b", "c", "d"], correct := 0, explanation := "" },
   { question := "q1", options := ["a", "b", "c", "d"], correct := 1, explanation := "" },
   { question := "q2", options := ["a", "b", "c", "d"], correct := 2, explanation := "" }]

/-- A session over c9Questions with two correct answers and one question
unanswered. -/
def c9Session : QuizSession :=
  { id := "9"
    difficulty := "basic"
    questions := c9Questions
    currentQuestion := 0
    answers := fun j => if j = 0 then some 0 else if j = 1 then some 1 else none
    startTime := 0
    completed := false }

/-- A store holding only c9Session under id "9". -/
def c9Store : Store := fun k => if k = "9" then some c9Session else none

/-- C9 witness: 2 correct out of 3 scores 67. -/
theorem quiz_C9_witness :
    (computeResults c9Store "9" 0).1.map (·.score) = Except.ok (some 67) := by
  have h := (quiz_C9 c9Store "9" c9Session 0 rfl (by decide)).1
  exact h.trans rfl

/-- C10 (amended): a results request on a stored session with at least one
question and an empty answers map succeeds with correct = 0 and
score = some 0, every review entry marked incorrect, and marks the session
completed, after which recordAnswer fails with AlreadyCompleted and leaves
the store unchanged (so every later retry fails the same way).  A stored
session with zero questions instead yields score NaN
(see quiz_C10_counterexample). -/
theorem quiz_C10_amended (st : Store) (sid : String) (s : QuizSession) (now : Nat)
    (hs : st sid = some s) (hN : s.questions.length ≠ 0)
    (hempty : ∀ k, s.answers k = none) :
    (computeResults st sid now).1 = .ok (summarize s now) ∧
    (summarize s now).correct = 0 ∧
    (summarize s now).score = some 0 ∧
    (∀ e ∈ (summarize s now).results, e.isCorrect = false) ∧
    (computeResults st sid now).2 sid = some { s with completed := true } ∧
    (∀ qi a, recordAnswer (computeResults st sid now).2 sid qi a = (.error .alreadyCompleted, (computeResults st sid now).2)) := by
  have hrev : ∀ e ∈ reviewOf s.questions s.answers, e.isCorrect = false := by
    intro e he
    unfold reviewOf at he
    rcases List.mem_map.mp he with ⟨p, hp, rfl⟩
    simp [hempty]
  have hcount : (reviewOf s.questions s.answers).countP (·.isCorrect) = 0 := by
    rw [List.countP_eq_zero]
    intro e he
    simp [hrev e he]
  have h1 : computeResults st sid now = (.ok (summarize s now), setStore st sid { s with completed := true }) := by
    simp [computeResults, hs]
  have hspec : specScore 0 s.questions.length = 0 := by
    unfold specScore
    apply Nat.div_eq_of_lt
    omega
  have hscore : (summarize s now).score = some 0 := by
    show scoreOf ((reviewOf s.questions s.answers).countP (·.isCorrect)) s.questions.length = some 0
    rw [hcount, scoreOf_eq_specScore _ _ hN, hspec]
    rfl
  have h2 : (computeResults st sid now).2 sid = some { s with completed := true } := by
    rw [h1]
    simp [setStore]
  refine ⟨by rw [h1], hcount, hscore, hrev, h2, ?_⟩
  intro qi a
  simp [recordAnswer, h2]

/-- A stored session with zero questions (reachable when the model output
parses to an empty array) and an empty answers map. -/
def c10EmptySession : QuizSession :=
  { id := "0"
    difficulty := "basic"
    questions := []
    currentQuestion := 0
    answers := fun _ => none
    startTime := 0
    completed := false }

/-- A store holding only c10EmptySession under id "0". -/
def c10EmptyStore : Store := fun k => if k = "0" then some c10EmptySession else none

/-- C10 is false as stated: on a zero-question session with an empty
answers map the results request yields score NaN (modelled none), not 0. -/
theorem quiz_C10_counterexample :
    (computeResults c10EmptyStore "0" 0).1.map (·.score) = .ok none ∧
    (Except.ok none : Except QuizError (Option Int)) ≠ .ok (some 0) :=
  ⟨rfl, by simp⟩

/-- C10 witness: the amended theorem applied to a concrete unanswered
session. -/
theorem quiz_C10_witness :
    (summarize c5Session 3).score = some 0 ∧
    (recordAnswer (computeResults c5Store "5" 3).2 "5" 0 0).1 = .error .alreadyCompleted := by
  have h := quiz_C10_amended c5Store "5" c5Session 3 rfl (by decide) (fun k => rfl)
  have h2 := congrArg Prod.fst (h.2.2.2.2.2 0 0)
  exact ⟨h.2.2.1, h2⟩
